import Mathlib

set_option maxRecDepth 40000

/-!
Shallow embedding of the encrypted-file-transfer server
(`src/protocol.py`, `src/database.py`, `src/encryption.py`, `src/server.py`).

Bytes objects are modelled as `List Nat` (each entry one byte).  Python's
dynamic typing matters in a few places (fields that hold an `int`, a `bytes`,
a `str` or a 1-tuple produced by `struct.unpack` without a `[0]` index), so
those fields are modelled with the `PyVal` type below.  An uncaught Python
exception is modelled by the `PyResult.exn` constructor, which records the
database state at the moment the exception escapes the handler.

Name resolution: `src/server.py` refers to `protocol.RequestCode`,
`protocol.ResponseCode`, `protocol.EncryptedKeyResponse` and
`protocol.SendFileRequest`; the definitions in `src/protocol.py` carry the
names `ERequestCode`, `EResponseCode`, `AESKeyResponse` and `FileSendRequest`
(each the unique structural counterpart, and the one the handler's fields and
the claims' source citations identify).  Those class-level spellings are
resolved to the existing definitions.  Attribute-level mismatches inside
defined classes (`response.encryptedKey` vs the packed `AESKey` field,
`response.crc` vs the packed `ckSum` field, tuple-valued fields from a missing
`[0]`, and the read of `request.fileContent` — an attribute `FileSendRequest`
does not have, raising inside the SendFile handler's `try` block) are
well-defined Python behaviour and are modelled faithfully.
`protocol.MessageReceivedResponse` / `protocol.MsgRecvResponse` have no
definition anywhere in src/ and are modelled from the spec (see below).
-/

namespace EFTS

/-- Byte strings: each element is one byte value. -/
abbrev Bytes := List Nat

/-- Little-endian encoding of `v` into `w` bytes (Python `struct.pack` with
`<B`, `<H`, `<L`; values used by the server always fit their field). -/
def toLE : Nat → Nat → Bytes
  | 0, _ => []
  | w + 1, v => v % 256 :: toLE w (v / 256)

/-- Pad (with zero bytes) or truncate to exactly `n` bytes: the behaviour of
`struct.pack` with an `Ns` field. -/
def padS (n : Nat) (bs : Bytes) : Bytes :=
  bs.take n ++ List.replicate (n - bs.length) 0

/-- `struct.unpack` with a single `Ns` field: succeeds only if the buffer has
exactly `n` bytes, otherwise `struct.error` (modelled as `none`). -/
def unpackS (n : Nat) (bs : Bytes) : Option Bytes :=
  if bs.length = n then some bs else none

/-- One bit-step of the (reflected, polynomial `0xEDB88320`) CRC-32 used by
`zlib.crc32`. -/
def crc32Step (c : Nat) : Nat :=
  if c % 2 = 1 then (c / 2) ^^^ 0xEDB88320 else c / 2

/-- Absorb one byte into the running CRC-32 register (8 bit-steps). -/
def crc32Update (crc b : Nat) : Nat :=
  crc32Step (crc32Step (crc32Step (crc32Step
    (crc32Step (crc32Step (crc32Step (crc32Step (crc ^^^ b))))))))

/-- `zlib.crc32` over a byte string (initial register `0xFFFFFFFF`, final
complement). -/
def crc32 (data : Bytes) : Nat :=
  (data.foldl crc32Update 0xFFFFFFFF) ^^^ 0xFFFFFFFF

/-- Python `bytes.decode("utf-8")`: strict UTF-8 decoding, rejecting stray
continuation bytes, overlong forms, surrogates and out-of-range code points
(`UnicodeDecodeError` is modelled as `none`). -/
def decodeUtf8 : List Nat → Option (List Char)
  | [] => some []
  | b0 :: t =>
    if b0 < 0x80 then
      (decodeUtf8 t).map (fun cs => Char.ofNat b0 :: cs)
    else
      match t with
      | b1 :: t1 =>
        if 0xC2 ≤ b0 ∧ b0 ≤ 0xDF ∧ 0x80 ≤ b1 ∧ b1 ≤ 0xBF then
          (decodeUtf8 t1).map (fun cs => Char.ofNat ((b0 - 0xC0) * 64 + (b1 - 0x80)) :: cs)
        else
          match t1 with
          | b2 :: t2 =>
            if 0xE0 ≤ b0 ∧ b0 ≤ 0xEF ∧
               (if b0 = 0xE0 then 0xA0 ≤ b1 ∧ b1 ≤ 0xBF
                else if b0 = 0xED then 0x80 ≤ b1 ∧ b1 ≤ 0x9F
                else 0x80 ≤ b1 ∧ b1 ≤ 0xBF) ∧
               0x80 ≤ b2 ∧ b2 ≤ 0xBF then
              (decodeUtf8 t2).map (fun cs =>
                Char.ofNat ((b0 - 0xE0) * 4096 + (b1 - 0x80) * 64 + (b2 - 0x80)) :: cs)
            else
              match t2 with
              | b3 :: t3 =>
                if 0xF0 ≤ b0 ∧ b0 ≤ 0xF4 ∧
                   (if b0 = 0xF0 then 0x90 ≤ b1 ∧ b1 ≤ 0xBF
                    else if b0 = 0xF4 then 0x80 ≤ b1 ∧ b1 ≤ 0x8F
                    else 0x80 ≤ b1 ∧ b1 ≤ 0xBF) ∧
                   0x80 ≤ b2 ∧ b2 ≤ 0xBF ∧ 0x80 ≤ b3 ∧ b3 ≤ 0xBF then
                  (decodeUtf8 t3).map (fun cs =>
                    Char.ofNat ((b0 - 0xF0) * 262144 + (b1 - 0x80) * 4096 +
                      (b2 - 0x80) * 64 + (b3 - 0x80)) :: cs)
                else none
              | [] => none
          | [] => none
      | [] => none

/-- UTF-8 encoding of one character (used when a `str` stored in sqlite is
read back as `bytes`, because `Database.connect` sets `text_factory = bytes`). -/
def encodeChar (c : Char) : Bytes :=
  let n := c.toNat
  if n < 0x80 then [n]
  else if n < 0x800 then [0xC0 + n / 64, 0x80 + n % 64]
  else if n < 0x10000 then [0xE0 + n / 4096, 0x80 + n / 64 % 64, 0x80 + n % 64]
  else [0xF0 + n / 262144, 0x80 + n / 4096 % 64, 0x80 + n / 64 % 64, 0x80 + n % 64]

/-- UTF-8 encoding of a string. -/
def encodeUtf8 (s : String) : Bytes :=
  s.toList.foldr (fun c acc => encodeChar c ++ acc) []

/-- Python `str.isspace` restricted to the ASCII whitespace characters.
(Only ever evaluated on ASCII input in the modelled paths.) -/
def pyIsSpace (c : Char) : Bool :=
  c = ' ' ∨ c = '\t' ∨ c = '\n' ∨ c = '\r' ∨ c = '\x0b' ∨ c = '\x0c'

/-- A Python runtime value, for the fields whose type varies dynamically.
`tup1 v` is the 1-tuple `(v,)` that `struct.unpack` returns when the source
forgets the `[0]` index. -/
inductive PyVal where
  | int (n : Nat)
  | bool (b : Bool)
  | bytes (bs : Bytes)
  | str (s : String)
  | tup1 (v : PyVal)
deriving DecidableEq, Repr

/-- Python truthiness of a `PyVal`. -/
def PyVal.truthy : PyVal → Bool
  | .int n => n ≠ 0
  | .bool b => b
  | .bytes bs => bs ≠ []
  | .str s => s ≠ ""
  | .tup1 _ => true

/-- Python `type(v) is bool`. -/
def PyVal.isBool : PyVal → Bool
  | .bool _ => true
  | _ => false

/-! ## protocol.py: constants and code enumerations -/

def SERVER_VERSION : Nat := 3
def HEADER_SIZE : Nat := 7
def CLIENT_ID_SIZE : Nat := 16
def CONTENT_SIZE : Nat := 4
def NAME_SIZE : Nat := 255
def FILE_NAME_SIZE : Nat := 255
def PATH_NAME_SIZE : Nat := 255
def PUBLIC_KEY_SIZE : Nat := 160
def AES_KEY_SIZE : Nat := 16
def CHECKSUM_SIZE : Nat := 4

/-- protocol.py `ERequestCode` (server.py refers to it as `RequestCode`). -/
inductive ERequestCode where
  | REQUEST_REGISTRATION
  | REQUEST_SEND_PUBLIC_KEY
  | REQUEST_SEND_FILE
  | REQUEST_CRC_VALID
  | REQUEST_CRC_INVALID
  | REQUEST_CRC_INVALID_FOURTH_TIME
deriving DecidableEq, Repr

/-- The numeric value of each request code, exactly as written in
protocol.py (note `REQUEST_CRC_INVALID = 1005` in the source). -/
def ERequestCode.val : ERequestCode → Nat
  | .REQUEST_REGISTRATION => 1100
  | .REQUEST_SEND_PUBLIC_KEY => 1101
  | .REQUEST_SEND_FILE => 1103
  | .REQUEST_CRC_VALID => 1104
  | .REQUEST_CRC_INVALID => 1005
  | .REQUEST_CRC_INVALID_FOURTH_TIME => 1106

/-- protocol.py `EResponseCode` (server.py refers to it as `ResponseCode`). -/
inductive EResponseCode where
  | RESPONSE_REGISTRATION_SUCCESS
  | RESPONSE_REGISTRATION_FAILED
  | RESPONSE_AES_KEY
  | RESPONSE_SUCCESS_FILE_WITH_CRC
  | RESPONSE_MSG_RECEIVED_THANKS
  | RESPONSE_ERROR
deriving DecidableEq, Repr

/-- The numeric value of each response code, as written in protocol.py. -/
def EResponseCode.val : EResponseCode → Nat
  | .RESPONSE_REGISTRATION_SUCCESS => 2100
  | .RESPONSE_REGISTRATION_FAILED => 2101
  | .RESPONSE_AES_KEY => 2102
  | .RESPONSE_SUCCESS_FILE_WITH_CRC => 2103
  | .RESPONSE_MSG_RECEIVED_THANKS => 2104
  | .RESPONSE_ERROR => 9999

/-! ## protocol.py: request decoding

Each `unpack` mutates `self` and returns a `bool`; this is modelled as a
function returning `Bool × state`.  On failure the `except` branch resets the
fields that the Python code resets (note: the compound requests reset their
payload fields but not `self.header`). -/

/-- The mutable fields of protocol.py `RequestHeader`. -/
structure RequestHeaderS where
  clientID : Bytes
  version : Nat
  code : Nat
  payloadSize : Nat
deriving DecidableEq, Repr

/-- `RequestHeader.__init__`: all fields at their default values. -/
def RequestHeaderS.init : RequestHeaderS :=
  ⟨[], 0, 0, 0⟩

/-- `RequestHeader.unpack`: 16-byte client id, then `<BHL`
(version, code, payload size), all little-endian.  `struct.unpack` demands the
sliced buffers have exactly the declared size; any failure runs
`self.__init__()` and returns `False`. -/
def RequestHeader.unpack (data : Bytes) : Bool × RequestHeaderS :=
  match unpackS CLIENT_ID_SIZE (data.take CLIENT_ID_SIZE) with
  | none => (false, RequestHeaderS.init)
  | some cid =>
    match unpackS HEADER_SIZE ((data.drop CLIENT_ID_SIZE).take HEADER_SIZE) with
    | none => (false, RequestHeaderS.init)
    | some hd =>
      (true, ⟨cid, hd.getD 0 0, hd.getD 1 0 + 256 * hd.getD 2 0,
        hd.getD 3 0 + 256 * hd.getD 4 0 + 65536 * hd.getD 5 0 + 16777216 * hd.getD 6 0⟩)

/-- Fields of protocol.py `RegistrationRequest`: on a successful parse `name`
is a `str`; initially (and after a failed parse) it is the empty `bytes`. -/
structure RegistrationRequestS where
  header : RequestHeaderS
  name : PyVal
deriving DecidableEq, Repr

/-- `RegistrationRequest.unpack`: header, then a 255-byte name field
truncated at the first NUL and decoded as UTF-8.  On failure `self.name` is
reset to `b""`; the already-parsed header is not reset. -/
def RegistrationRequest.unpack (data : Bytes) : Bool × RegistrationRequestS :=
  let u := RequestHeader.unpack data
  if ¬ u.1 then (false, ⟨u.2, .bytes []⟩)
  else
    match unpackS NAME_SIZE ((data.drop 23).take NAME_SIZE) with
    | none => (false, ⟨u.2, .bytes []⟩)
    | some nd =>
      match decodeUtf8 (nd.takeWhile (· != 0)) with
      | none => (false, ⟨u.2, .bytes []⟩)
      | some cs => (true, ⟨u.2, .str (String.mk cs)⟩)

/-- Fields of protocol.py `PublicKeyRequest`. -/
structure PublicKeyRequestS where
  header : RequestHeaderS
  name : PyVal
  publicKey : Bytes
deriving DecidableEq, Repr

/-- `PublicKeyRequest.unpack`: header, 255-byte NUL-truncated UTF-8 name,
then a 160-byte public-key field.  On failure `name` and `publicKey` are
reset; the already-parsed header is not. -/
def PublicKeyRequest.unpack (data : Bytes) : Bool × PublicKeyRequestS :=
  let u := RequestHeader.unpack data
  if ¬ u.1 then (false, ⟨u.2, .bytes [], []⟩)
  else
    match unpackS NAME_SIZE ((data.drop 23).take NAME_SIZE) with
    | none => (false, ⟨u.2, .bytes [], []⟩)
    | some nd =>
      match decodeUtf8 (nd.takeWhile (· != 0)) with
      | none => (false, ⟨u.2, .bytes [], []⟩)
      | some cs =>
        match unpackS PUBLIC_KEY_SIZE ((data.drop 278).take PUBLIC_KEY_SIZE) with
        | none => (false, ⟨u.2, .bytes [], []⟩)
        | some key => (true, ⟨u.2, .str (String.mk cs), key⟩)

/-- Fields of protocol.py `FileSendRequest` (the class server.py refers to as
`SendFileRequest`).  `contentSize` and `fileName` are assigned the raw
result of `struct.unpack` — a 1-tuple, since the source omits the `[0]`
index — while `clientID` and `msgContent` do take `[0]`. -/
structure FileSendRequestS where
  header : RequestHeaderS
  clientID : Bytes
  contentSize : PyVal
  fileName : PyVal
  msgContent : Bytes
deriving DecidableEq, Repr

/-- `FileSendRequest.__init__`. -/
def FileSendRequestS.init : FileSendRequestS :=
  ⟨RequestHeaderS.init, [], .int 0, .bytes [], []⟩

/-- `FileSendRequest.unpack`: header; 16-byte body client id; `<L` content
size (kept as a 1-tuple); 255-byte file-name field (kept as a 1-tuple); the
rest of the datagram as message content.  On failure the four payload fields
are reset but the parsed header is kept. -/
def FileSendRequest.unpack (data : Bytes) : Bool × FileSendRequestS :=
  let u := RequestHeader.unpack data
  if ¬ u.1 then (false, FileSendRequestS.init)
  else
    let failS : FileSendRequestS := ⟨u.2, [], .int 0, .bytes [], []⟩
    match unpackS CLIENT_ID_SIZE ((data.drop 23).take CLIENT_ID_SIZE) with
    | none => (false, failS)
    | some cid =>
      match unpackS CONTENT_SIZE ((data.drop 39).take CONTENT_SIZE) with
      | none => (false, failS)
      | some cs =>
        match unpackS FILE_NAME_SIZE ((data.drop 43).take FILE_NAME_SIZE) with
        | none => (false, failS)
        | some fn =>
          (true, ⟨u.2, cid,
            .tup1 (.int (cs.getD 0 0 + 256 * cs.getD 1 0 + 65536 * cs.getD 2 0 +
              16777216 * cs.getD 3 0)),
            .tup1 (.bytes fn), data.drop 298⟩)

/-- Shared field layout of protocol.py `CRCValidRequest`,
`CRCNotValidRequest` and `CRCNotValidFourthTimeRequest` (their bodies are
textually identical).  `fileName` keeps the raw `struct.unpack` 1-tuple. -/
structure CRCRequestS where
  header : RequestHeaderS
  clientID : Bytes
  fileName : PyVal
deriving DecidableEq, Repr

/-- `CRCValidRequest.unpack`: header; 16-byte body client id; then the
255-byte file-name field read from offset `header.SIZE + CLIENT_ID_SIZE +
CONTENT_SIZE` (the 4 content-size bytes are skipped, as in the source). -/
def CRCValidRequest.unpack (data : Bytes) : Bool × CRCRequestS :=
  let u := RequestHeader.unpack data
  if ¬ u.1 then (false, ⟨u.2, [], .bytes []⟩)
  else
    match unpackS CLIENT_ID_SIZE ((data.drop 23).take CLIENT_ID_SIZE) with
    | none => (false, ⟨u.2, [], .bytes []⟩)
    | some cid =>
      match unpackS FILE_NAME_SIZE ((data.drop 43).take FILE_NAME_SIZE) with
      | none => (false, ⟨u.2, [], .bytes []⟩)
      | some fn => (true, ⟨u.2, cid, .tup1 (.bytes fn)⟩)

/-- `CRCNotValidRequest.unpack` (same body as `CRCValidRequest.unpack`). -/
def CRCNotValidRequest.unpack (data : Bytes) : Bool × CRCRequestS :=
  CRCValidRequest.unpack data

/-- `CRCNotValidFourthTimeRequest.unpack` (same body again). -/
def CRCNotValidFourthTimeRequest.unpack (data : Bytes) : Bool × CRCRequestS :=
  CRCValidRequest.unpack data

/-! ## protocol.py: response encoding -/

/-- `ResponseHeader.pack`: `<BHL` with `version = SERVER_VERSION`. -/
def ResponseHeader.pack (code payloadSize : Nat) : Bytes :=
  SERVER_VERSION % 256 :: (toLE 2 code ++ toLE 4 payloadSize)

/-- `FailedRegistrationResponse.pack`: a bare header with code 2101 and the
default payload size 0. -/
def FailedRegistrationResponse.pack : Bytes :=
  ResponseHeader.pack (EResponseCode.val .RESPONSE_REGISTRATION_FAILED) 0

/-- `SuccessRegistrationResponse.pack`: header (code 2100, payload size set
to `CLIENT_ID_SIZE` by the handler) followed by the 16-byte client id. -/
def SuccessRegistrationResponse.pack (clientID : Bytes) : Bytes :=
  ResponseHeader.pack (EResponseCode.val .RESPONSE_REGISTRATION_SUCCESS) CLIENT_ID_SIZE ++
    padS CLIENT_ID_SIZE clientID

/-- `AESKeyResponse.pack` (server.py instantiates this class under the name
`EncryptedKeyResponse`): header, 16-byte client id, then the **16-byte**
`AESKey` field.  The handler assigns the RSA-sealed key to a *new* attribute
`encryptedKey` and never touches `AESKey`, so `AESKey` is still `b""` when
packed; `payloadSize` is whatever the handler stored in the header. -/
def AESKeyResponse.pack (clientID AESKey : Bytes) (payloadSize : Nat) : Bytes :=
  ResponseHeader.pack (EResponseCode.val .RESPONSE_AES_KEY) payloadSize ++
    padS CLIENT_ID_SIZE clientID ++ padS AES_KEY_SIZE AESKey

/-- `struct.pack` with a single `Ns` field applied to a dynamically typed
value: only `bytes` is accepted; an `int` or a tuple raises `struct.error`. -/
def packS (n : Nat) (v : PyVal) : Option Bytes :=
  match v with
  | .bytes bs => some (padS n bs)
  | _ => none

/-- `FileReceivedWithCRCResponse.pack`: header (code 2103), client id, then
`<4s`, `<255s`, `<4s` fields for `contentSize`, `fileName` and `ckSum`.  The
handler leaves `contentSize`/`fileName` as the unpack 1-tuples and `ckSum` as
the integer 0 (the CRC goes to a new attribute `crc`), so the `struct.error`
branch returns `b""`. -/
def FileReceivedWithCRCResponse.pack (clientID : Bytes)
    (contentSize fileName ckSum : PyVal) (payloadSize : Nat) : Bytes :=
  match packS CONTENT_SIZE contentSize, packS FILE_NAME_SIZE fileName,
      packS CHECKSUM_SIZE ckSum with
  | some b, some c, some d =>
    ResponseHeader.pack (EResponseCode.val .RESPONSE_SUCCESS_FILE_WITH_CRC) payloadSize ++
      padS CLIENT_ID_SIZE clientID ++ b ++ c ++ d
  | _, _, _ => []

/-- Modelled from the spec: server.py instantiates
`protocol.MessageReceivedResponse` (CrcValid handler) and
`protocol.MsgRecvResponse` (CrcInvalidFourthTime handler), neither of which
is defined anywhere in src/.  Spec §4.1/§4.3 define the acknowledgement as
the MessageReceived response, code 2104, whose payload is the 16-byte client
id (the handlers set `header.payloadSize = CLIENT_ID_SIZE`). -/
def MessageReceivedResponse.pack (clientID : Bytes) : Bytes :=
  ResponseHeader.pack (EResponseCode.val .RESPONSE_MSG_RECEIVED_THANKS) CLIENT_ID_SIZE ++
    padS CLIENT_ID_SIZE clientID

/-! ## database.py

The sqlite store is modelled as two in-memory tables.  `Database.execute`
commits and returns `True` for UPDATE statements, returns fetched rows for
SELECT statements, and returns `None` (falsy) when the statement raises —
in particular when an INSERT violates the `ID` primary key. -/

/-- database.py `Client`: `ID` is 16 bytes from `bytes.fromhex(uuid4().hex)`;
`Name` and `LastSeen` are always `str`s; `PublicKey` and `AESKey` start as the
integer `DEFAULT_VALUE = 0` and later hold `bytes`. -/
structure Client where
  ID : Bytes
  Name : String
  PublicKey : PyVal
  LastSeen : String
  AESKey : PyVal
deriving DecidableEq, Repr

/-- `Client.validate`. -/
def Client.validate (c : Client) : Bool :=
  if c.ID = [] ∨ c.ID.length ≠ CLIENT_ID_SIZE then false
  else if c.Name = "" ∨ c.Name.length ≥ NAME_SIZE then false
  else if c.LastSeen = "" then false
  else true

/-- database.py `File`: the handler passes `ID` as the 16 header bytes and
`FileName`/`PathName` as `str`s; `Verified` is dynamically typed because
`File.validate` inspects its runtime type. -/
structure File where
  ID : Bytes
  FileName : String
  PathName : String
  Verified : PyVal
deriving DecidableEq, Repr

/-- `File.validate`: note the last check `if self.Verified or not
type(self.Verified) is bool: return False` — only the boolean `False`
passes. -/
def File.validate (f : File) : Bool :=
  if f.ID = [] ∨ f.ID.length ≠ CLIENT_ID_SIZE then false
  else if f.FileName = "" ∨ f.FileName.length ≥ FILE_NAME_SIZE then false
  else if f.PathName = "" ∨ f.PathName.length ≥ PATH_NAME_SIZE then false
  else if f.Verified.truthy ∨ ¬ f.Verified.isBool then false
  else true

/-- The two sqlite tables. -/
structure DB where
  clients : List Client
  files : List File
deriving DecidableEq, Repr

/-- `Database.client_username_exists`: SELECT by `Name`.  The query argument
is dynamically typed (`b""` when a parse failed); sqlite equality between a
BLOB argument and the TEXT column never matches. -/
def Database.client_username_exists (st : DB) (name : PyVal) : Bool :=
  match name with
  | .str s => st.clients.any (fun c => c.Name == s)
  | _ => false

/-- `Database.client_id_exists`: SELECT by `ID`. -/
def Database.client_id_exists (st : DB) (cid : Bytes) : Bool :=
  st.clients.any (fun c => c.ID == cid)

/-- `Database.store_client`: validates, then INSERTs; a primary-key conflict
makes `execute` return `None` (falsy). -/
def Database.store_client (st : DB) (c : Client) : Bool × DB :=
  if ¬ c.validate then (false, st)
  else if st.clients.any (fun x => x.ID == c.ID) then (false, st)
  else (true, { st with clients := st.clients ++ [c] })

/-- `Database.get_client_id`: `execute(...)[0][0]` — `none` models the
`IndexError` raised when no row matches (it propagates out of the caller). -/
def Database.get_client_id (st : DB) (name : PyVal) : Option Bytes :=
  match name with
  | .str s => ((st.clients.filter (fun c => c.Name == s)).head?).map Client.ID
  | _ => none

/-- `Database.get_client_name`: `execute(...)[0][0]`; the TEXT column comes
back as `bytes` because of `text_factory = bytes`.  `none` models the
`IndexError` when no row matches. -/
def Database.get_client_name (st : DB) (cid : Bytes) : Option Bytes :=
  ((st.clients.filter (fun c => c.ID == cid)).head?).map (fun c => encodeUtf8 c.Name)

/-- `Database.set_public_key`: UPDATE (commits and returns `True` whether or
not any row matched). -/
def Database.set_public_key (st : DB) (cid : Bytes) (key : PyVal) : Bool × DB :=
  let cs := st.clients.map (fun c => if c.ID == cid then { c with PublicKey := key } else c)
  (true, { st with clients := cs })

/-- `Database.get_client_aes`: returns `None` when no row matches, else the
stored `AESKey` value (an `int 0` until a key exchange stored `bytes`). -/
def Database.get_client_aes (st : DB) (cid : Bytes) : Option PyVal :=
  ((st.clients.filter (fun c => c.ID == cid)).head?).map Client.AESKey

/-- `Database.update_aes_key`: checks `client_id_exists` first, then
UPDATEs. -/
def Database.update_aes_key (st : DB) (cid : Bytes) (key : Bytes) : Bool × DB :=
  if ¬ Database.client_id_exists st cid then (false, st)
  else
    let cs := st.clients.map (fun c => if c.ID == cid then { c with AESKey := .bytes key } else c)
    (true, { st with clients := cs })

/-- `Database.insert_new_file`: validates, then `INSERT OR IGNORE` — when a
row with the same `ID` already exists the insert is silently skipped (the
existing row is *not* replaced) and `execute` still returns `True`. -/
def Database.insert_new_file (st : DB) (f : File) : Bool × DB :=
  if ¬ f.validate then (false, st)
  else if st.files.any (fun x => x.ID == f.ID) then (true, st)
  else (true, { st with files := st.files ++ [f] })

/-- `Database.update_file_verified`: UPDATE `Verified` on the rows whose
`PathName` matches. -/
def Database.update_file_verified (st : DB) (path : String) (b : Bool) : Bool × DB :=
  let fs := st.files.map (fun f => if f.PathName == path then { f with Verified := .bool b } else f)
  (true, { st with files := fs })

/-- `Database.set_last_seen`: UPDATE `LastSeen` on the rows whose `ID`
matches. -/
def Database.set_last_seen (st : DB) (cid : Bytes) (t : String) : Bool × DB :=
  let cs := st.clients.map (fun c => if c.ID == cid then { c with LastSeen := t } else c)
  (true, { st with clients := cs })

/-! ## server.py -/

/-- The outcome of running a piece of Python code against the store: a normal
return, or an uncaught exception escaping the handler (carrying the database
state at the moment it escapes — nothing further runs in `Server.read`, so no
response is written and the connection is not unregistered or closed). -/
inductive PyResult (α : Type) where
  | ok (a : α)
  | exn (st : DB)
deriving DecidableEq, Repr

/-- The environment of effects external to src/: the wall clock
(`datetime.now`), the fresh identity (`uuid.uuid4`), the fresh symmetric key
(`Crypto.Random.get_random_bytes(16)` in `encryption.create_aes_key`), RSA
sealing (`encryption.encrypt_aes_key_with_rsa_key`: `none` models the
exception `RSA.importKey`/`PKCS1_OAEP.encrypt` raises on invalid key
material), and raw AES-CBC decryption with the zero IV
(`AES.new(key, MODE_CBC, bytes(16)).decrypt`; the SendFile handler never
reaches a `decrypt` call, because the argument expression
`request.fileContent` raises first — see `sendFileDecrypt`). -/
structure Ext where
  now : String
  freshId : Bytes
  freshAes : Bytes
  rsaSeal : Bytes → Bytes → Option Bytes
  aesDec : Bytes → Bytes → Bytes

/-- `Server.write` chunks the response into `PACKET_SIZE = 1024`-byte
segments, zero-padding the final short segment (`writePacketsAux` is fuelled
by the byte count; each iteration consumes at least one byte). -/
def writePacketsAux : Nat → Bytes → List Bytes
  | 0, _ => []
  | fuel + 1, data =>
    if data = [] then []
    else padS 1024 (data.take 1024) :: writePacketsAux fuel (data.drop 1024)

/-- The exact packets `Server.write` sends for a response buffer. -/
def writePackets (data : Bytes) : List Bytes :=
  writePacketsAux data.length data

/-- `Server.handle_registration_request`.  The name check transcribes the
source condition `if not request.name != '' and all(ch.isalpha() or
ch.isspace() for ch in request.name)` with Python's precedence: `not` binds
tighter than `and`, so it reads `(not (name != '')) and all(...)`. -/
def Server.handle_registration_request (ext : Ext) (st : DB) (data : Bytes) :
    PyResult (Bool × List Bytes × DB) :=
  let u := RegistrationRequest.unpack data
  if ¬ u.1 then .ok (true, writePackets FailedRegistrationResponse.pack, st)
  else
    match u.2.name with
    | .str name =>
      if (¬ (name ≠ "")) ∧ name.toList.all (fun ch => ch.isAlpha || pyIsSpace ch) then
        .ok (true, writePackets FailedRegistrationResponse.pack, st)
      else if Database.client_username_exists st (.str name) then
        .ok (true, writePackets FailedRegistrationResponse.pack, st)
      else
        let client : Client := ⟨ext.freshId, name, .int 0, ext.now, .int 0⟩
        let r := Database.store_client st client
        if ¬ r.1 then .ok (true, writePackets FailedRegistrationResponse.pack, r.2)
        else .ok (true, writePackets (SuccessRegistrationResponse.pack client.ID), r.2)
    | _ =>
      -- unreachable: a successful unpack always yields a `str` name, and a
      -- failed unpack returned above
      .ok (true, writePackets FailedRegistrationResponse.pack, st)

/-- `Server.handle_encrypted_key_response`.  A parse failure is only logged
(execution continues with the reset fields); `get_client_id` raises when the
name is unknown; the fresh AES key is stored *before* sealing; `pack` writes
the untouched 16-byte `AESKey` field while `payloadSize` was set to
`CLIENT_ID_SIZE + len(encrypted_aes)`. -/
def Server.handle_encrypted_key_response (ext : Ext) (st : DB) (data : Bytes) :
    PyResult (Bool × List Bytes × DB) :=
  let u := PublicKeyRequest.unpack data
  match Database.get_client_id st u.2.name with
  | none => .exn st
  | some cid =>
    let r1 := Database.set_public_key st cid (.bytes u.2.publicKey)
    if ¬ r1.1 then .ok (false, [], r1.2)
    else
      let aes := ext.freshAes
      let r2 := Database.update_aes_key r1.2 cid aes
      -- a `False` result is only printed, not acted upon
      match ext.rsaSeal u.2.publicKey aes with
      | none => .exn r2.2
      | some blob =>
        .ok (true,
          writePackets (AESKeyResponse.pack cid [] (CLIENT_ID_SIZE + blob.length)),
          r2.2)

/-- `Crypto.Util.Padding.unpad` with block size 16: the padding check the
SendFile handler would perform at line 178.  (Unreachable in this program:
line 177 raises before a plaintext exists.) -/
def unpad16 (pt : Bytes) : Option Bytes :=
  if pt.length % 16 ≠ 0 then none
  else
    match pt.getLast? with
    | none => none
    | some n =>
      if n < 1 ∨ n > 16 then none
      else if pt.drop (pt.length - n) = List.replicate n n then
        some (pt.take (pt.length - n))
      else none

/-- The `try` block of `Server.handle_send_file_request` (lines 169-181):
key lookup, `AES.new(key, MODE_CBC, bytes(16))`, then
`cipher.decrypt(request.fileContent)`.  A missing client or a non-`bytes` /
wrong-length stored key makes `AES.new` raise; and when `AES.new` succeeds,
the argument expression `request.fileContent` raises `AttributeError`
(`FileSendRequest` has no such attribute — its field is `msgContent`), so
`decrypt`/`unpad` never run.  Every path is caught by the bare `except`:
the block never yields a plaintext on any input. -/
def sendFileDecrypt (_ext : Ext) (st : DB) (req : FileSendRequestS) : Option Bytes :=
  match Database.get_client_aes st req.header.clientID with
  | some (.bytes k) =>
    if k.length = 16 ∨ k.length = 24 ∨ k.length = 32 then
      -- line 177: `request.fileContent` → AttributeError, caught by `except`
      none
    else none
  | _ => none

/-- `Server.handle_send_file_request` (the request class is instantiated as
`SendFileRequest`, i.e. `FileSendRequest`).  The `try` block (modelled by
`sendFileDecrypt`) fails on every input â at the latest at line 177, where
the content is read as `request.fileContent`, an attribute the request class
does not have â so the handler returns `False` for every request and `read`
answers with the generic-error response.  Lines 183-198 (file-name handling,
`insert_new_file`, the CRC computation and the `FileReceivedWithCRCResponse`
pack) are dead code. -/
def Server.handle_send_file_request (ext : Ext) (st : DB) (data : Bytes) :
    PyResult (Bool × List Bytes × DB) :=
  let u := FileSendRequest.unpack data
  -- a parse failure is only logged; the try block then fails on every path
  match sendFileDecrypt ext st u.2 with
  | _ => .ok (false, [], st)

/-- `Server.handle_crc_valid_request` (the response class
`MessageReceivedResponse` is spec-modelled, see above).  Line 207 calls
`request.fileName.partition(b"\x00")` on the unpack 1-tuple, so every fully
parsed request raises before `update_file_verified` runs. -/
def Server.handle_crc_valid_request (_ext : Ext) (st : DB) (data : Bytes) :
    PyResult (Bool × List Bytes × DB) :=
  let u := CRCValidRequest.unpack data
  match u.2.fileName with
  | .bytes fb =>
    match decodeUtf8 (fb.takeWhile (· != 0)) with
    | none => .exn st
    | some fcs =>
      match Database.get_client_name st u.2.header.clientID with
      | none => .exn st
      | some nb =>
        match decodeUtf8 nb with
        | none => .exn st
        | some ncs =>
          let fpath := String.mk ncs ++ "\\" ++ String.mk fcs
          let r := Database.update_file_verified st fpath true
          -- the log line looks the client name up (and decodes it) again
          match Database.get_client_name r.2 u.2.header.clientID with
          | none => .exn r.2
          | some nb2 =>
            match decodeUtf8 nb2 with
            | none => .exn r.2
            | some _ =>
              .ok (true,
                writePackets (MessageReceivedResponse.pack u.2.header.clientID), r.2)
  | _ => .exn st

/-- `Server.handle_crc_invalid_request`: parses, logs (the log line looks up
and decodes the client name, which can raise), and returns `True` **without
writing any response**. -/
def Server.handle_crc_invalid_request (_ext : Ext) (st : DB) (data : Bytes) :
    PyResult (Bool × List Bytes × DB) :=
  let u := CRCNotValidRequest.unpack data
  match Database.get_client_name st u.2.header.clientID with
  | none => .exn st
  | some nb =>
    match decodeUtf8 nb with
    | none => .exn st
    | some _ => .ok (true, [], st)

/-- `Server.handle_crc_invalid_fourth_time_request` (the response class
`MsgRecvResponse` is spec-modelled as the MessageReceived response). -/
def Server.handle_crc_invalid_fourth_time_request (_ext : Ext) (st : DB) (data : Bytes) :
    PyResult (Bool × List Bytes × DB) :=
  let u := CRCNotValidFourthTimeRequest.unpack data
  match Database.get_client_name st u.2.header.clientID with
  | none => .exn st
  | some nb =>
    match decodeUtf8 nb with
    | none => .exn st
    | some _ =>
      .ok (true, writePackets (MessageReceivedResponse.pack u.2.header.clientID), st)

/-- The dispatch step of `Server.read`: parse the header and route on the
`requestHandle` table built from `ERequestCode` values; an unparsable header
or an unknown code leaves `success = False` (which `read` turns into the
generic-error response). -/
def Server.dispatch (ext : Ext) (st : DB) (data : Bytes) :
    PyResult (Bool × List Bytes × DB) :=
  let u := RequestHeader.unpack data
  if ¬ u.1 then .ok (false, [], st)
  else if u.2.code = ERequestCode.val .REQUEST_REGISTRATION then
    Server.handle_registration_request ext st data
  else if u.2.code = ERequestCode.val .REQUEST_SEND_PUBLIC_KEY then
    Server.handle_encrypted_key_response ext st data
  else if u.2.code = ERequestCode.val .REQUEST_SEND_FILE then
    Server.handle_send_file_request ext st data
  else if u.2.code = ERequestCode.val .REQUEST_CRC_VALID then
    Server.handle_crc_valid_request ext st data
  else if u.2.code = ERequestCode.val .REQUEST_CRC_INVALID then
    Server.handle_crc_invalid_request ext st data
  else if u.2.code = ERequestCode.val .REQUEST_CRC_INVALID_FOURTH_TIME then
    Server.handle_crc_invalid_fourth_time_request ext st data
  else .ok (false, [], st)

/-- `Server.read` for one connection: one `recv`; empty data skips the whole
block (no response) but the connection is still unregistered and closed;
otherwise dispatch, append the generic-error response (code 9999) when the
handler reported failure, update `last_seen` with the header's client id, and
close.  `.ok (packets, st)` means the connection was closed after sending
`packets`; `.exn st` means an exception escaped — no response, no
`set_last_seen`, no unregister/close (the main loop merely logs it). -/
def Server.read (ext : Ext) (st : DB) (data : Bytes) : PyResult (List Bytes × DB) :=
  if data = [] then .ok ([], st)
  else
    match Server.dispatch ext st data with
    | .exn st1 => .exn st1
    | .ok (success, pkts, st1) =>
      let out := if success then pkts
        else pkts ++ writePackets (ResponseHeader.pack (EResponseCode.val .RESPONSE_ERROR) 0)
      .ok (out, (Database.set_last_seen st1 (RequestHeader.unpack data).2.clientID ext.now).2)

/-! ## Concrete execution contexts used by the witnesses and counterexamples -/

/-- A fixed 16-byte client identity. -/
def cidW : Bytes := List.replicate 16 1

/-- A fixed stored 16-byte AES key. -/
def keyW : Bytes := List.replicate 16 2

/-- An environment whose RSA sealing returns a 128-byte blob (the size
`PKCS1_OAEP` produces for the 1024-bit keys this deployment uses) and whose
raw CBC decryption returns a validly padded block. -/
def extA : Ext :=
  ⟨"t1", List.replicate 16 4, List.replicate 16 9,
    fun _ _ => some (List.replicate 128 7),
    fun _ _ => List.replicate 16 16⟩

/-- An environment whose raw CBC decryption of the empty ciphertext is empty
(as `AES.new(...).decrypt(b"")` is) and whose RSA sealing always fails. -/
def extB : Ext :=
  ⟨"t1", List.replicate 16 4, List.replicate 16 9, fun _ _ => none, fun _ _ => []⟩

/-- The registered client `"bob"` holding the stored AES key `keyW`. -/
def bobW : Client := ⟨cidW, "bob", .int 0, "t0", .bytes keyW⟩

/-- A store containing only `bobW`. -/
def dbBob : DB := ⟨[bobW], []⟩

/-- The empty store. -/
def dbEmpty : DB := ⟨[], []⟩

/-- A registered client named `"a"` that has not yet exchanged keys. -/
def clientA : Client := ⟨cidW, "a", .int 0, "t0", .int 0⟩

/-- A store containing only `clientA`. -/
def dbA : DB := ⟨[clientA], []⟩

/-- A SendPublicKey request (code 1101) addressed from `cidW` carrying the
name `"a"` and 160 bytes of public-key material. -/
def dataKeyW : Bytes :=
  cidW ++ [3, 77, 4, 0, 0, 0, 0] ++ ([97] ++ List.replicate 254 0) ++ List.replicate 160 7

/-- The store after the key exchange of `dataKeyW` under `extA`. -/
def dbA2 : DB :=
  ⟨[⟨cidW, "a", .bytes (List.replicate 160 7), "t1", .bytes (List.replicate 16 9)⟩], []⟩

/-- A Registration request (code 1100) asking for the name `"alice1"`
(which contains a digit). -/
def dataRegW : Bytes :=
  List.replicate 16 0 ++ [3, 76, 4, 0, 0, 0, 0] ++
    ([97, 108, 105, 99, 101, 49] ++ List.replicate 249 0)

/-- The store after `dataRegW` is processed from the empty store under
`extA`. -/
def dbReg2 : DB :=
  ⟨[⟨List.replicate 16 4, "alice1", .int 0, "t1", .int 0⟩], []⟩

/-- A fully formed SendFile request (code 1103) addressed to `cidW`, with a
16-byte ciphertext whose decryption under `extA` unpads successfully. -/
def dataSendFileW : Bytes :=
  cidW ++ [3, 79, 4, 0, 0, 0, 0] ++ cidW ++ [16, 0, 0, 0] ++
    List.replicate 255 0 ++ List.replicate 16 5

/-- A bare 23-byte SendFile header (code 1103) with no payload. -/
def dataSF23 : Bytes := cidW ++ [3, 79, 4, 0, 0, 0, 0]

/-- An unverified FileRecord for `cidW`. -/
def fileGood : File := ⟨cidW, "f", "bob\\f", .bool false⟩

/-- A FileRecord for `cidW` that is already verified. -/
def fileRowV : File := ⟨cidW, "old", "bob\\old", .bool true⟩

/-- A fresh unverified FileRecord for `cidW` (a new upload). -/
def fileNew : File := ⟨cidW, "new", "bob\\new", .bool false⟩

/-- A file object whose `Verified` attribute is `True` (the validator must
reject it). -/
def fileBad : File := ⟨cidW, "x", "y", .bool true⟩

/-- `bobW`'s store with an existing *verified* FileRecord. -/
def dbC8 : DB := ⟨[bobW], [fileRowV]⟩

/-- `dbC8` with the `last_seen` column updated to `"t1"`: the post-state of a
SendFile request — the files table is untouched. -/
def dbC82 : DB := ⟨[⟨cidW, "bob", .int 0, "t1", .bytes keyW⟩], [fileRowV]⟩

/-- `bobW`'s store with an existing unverified FileRecord. -/
def dbBobF : DB := ⟨[bobW], [fileGood]⟩

/-- A fully formed CrcValid request (code 1104) addressed to `cidW`. -/
def dataCV : Bytes :=
  cidW ++ [3, 80, 4, 0, 0, 0, 0] ++ cidW ++ [0, 0, 0, 0] ++ List.replicate 255 0

/-- A 23-byte CrcInvalid request (code 1005) addressed to `cidW`. -/
def dataCI : Bytes := cidW ++ [3, 237, 3, 0, 0, 0, 0]

/-- `dbBob` with the `last_seen` column updated to `"t1"` (the post-state of
a request processed under an environment whose clock reads `"t1"`). -/
def dbBob2 : DB := ⟨[⟨cidW, "bob", .int 0, "t1", .bytes keyW⟩], []⟩

/-- A 23-byte SendFile header whose code field is 1103 and payload-size
field is 9 (used to exhibit stale header data after a failed parse). -/
def dataH23 : Bytes := cidW ++ [3, 79, 4, 9, 0, 0, 0]

/-! ## Helper lemmas -/

theorem toLE_length : ∀ (w v : Nat), (toLE w v).length = w
  | 0, _ => rfl
  | w + 1, v => by simp [toLE, toLE_length w]

theorem padS_length (n : Nat) (bs : Bytes) : (padS n bs).length = n := by
  simp [padS]
  omega

theorem respHeader_pack_length (c s : Nat) : (ResponseHeader.pack c s).length = 7 := by
  simp [ResponseHeader.pack, toLE_length]

theorem success_pack_length (cid : Bytes) :
    (SuccessRegistrationResponse.pack cid).length = 23 := by
  simp [SuccessRegistrationResponse.pack, respHeader_pack_length, padS_length, CLIENT_ID_SIZE]

theorem aeskey_pack_length (cid k : Bytes) (s : Nat) :
    (AESKeyResponse.pack cid k s).length = 39 := by
  simp [AESKeyResponse.pack, respHeader_pack_length, padS_length, CLIENT_ID_SIZE, AES_KEY_SIZE]

theorem msgrecv_pack_length (cid : Bytes) :
    (MessageReceivedResponse.pack cid).length = 23 := by
  simp [MessageReceivedResponse.pack, respHeader_pack_length, padS_length, CLIENT_ID_SIZE]

theorem writePacketsAux_nil : ∀ n, writePacketsAux n [] = []
  | 0 => rfl
  | _ + 1 => by simp [writePacketsAux]

/-- A nonempty response of at most one packet size is sent as exactly one
zero-padded packet. -/
theorem writePackets_one {d : Bytes} (h1 : d.length ≠ 0) (h2 : d.length ≤ 1024) :
    writePackets d = [padS 1024 d] := by
  unfold writePackets
  cases hd : d.length with
  | zero => exact absurd hd h1
  | succ n =>
    have hne : d ≠ [] := by
      intro h
      rw [h] at hd
      simp at hd
    unfold writePacketsAux
    rw [if_neg hne]
    have hdrop : d.drop 1024 = [] := by
      apply List.drop_eq_nil_of_le
      omega
    have htake : d.take 1024 = d := List.take_of_length_le (by omega)
    rw [hdrop, writePacketsAux_nil, htake]

theorem writePackets_one_length {d : Bytes} (h1 : d.length ≠ 0) (h2 : d.length ≤ 1024) :
    (writePackets d).length = 1 := by
  rw [writePackets_one h1 h2]
  rfl

/-- A failing (short) header makes `RequestHeader.unpack` reset everything. -/
theorem requestHeader_unpack_short {data : Bytes} (h : data.length < 23) :
    RequestHeader.unpack data = (false, RequestHeaderS.init) := by
  unfold RequestHeader.unpack unpackS
  by_cases h16 : 16 ≤ data.length
  · have hl : (data.take CLIENT_ID_SIZE).length = CLIENT_ID_SIZE := by
      simp [List.length_take, CLIENT_ID_SIZE]
      omega
    have hc : ¬ ((data.drop CLIENT_ID_SIZE).take HEADER_SIZE).length = HEADER_SIZE := by
      simp [List.length_take, List.length_drop, CLIENT_ID_SIZE, HEADER_SIZE]
      omega
    rw [if_pos hl, if_neg hc]
  · have hl : ¬ (data.take CLIENT_ID_SIZE).length = CLIENT_ID_SIZE := by
      simp [List.length_take, CLIENT_ID_SIZE]
      omega
    rw [if_neg hl]

/-- Case analysis on `FileSendRequest.unpack`: a failed parse leaves the four
payload fields reset; a successful parse leaves `fileName` as the
`struct.unpack` 1-tuple. -/
theorem fileSend_unpack_char (data : Bytes) :
    ((FileSendRequest.unpack data).1 = false ∧
     (FileSendRequest.unpack data).2.clientID = [] ∧
     (FileSendRequest.unpack data).2.contentSize = .int 0 ∧
     (FileSendRequest.unpack data).2.fileName = .bytes [] ∧
     (FileSendRequest.unpack data).2.msgContent = []) ∨
    ((FileSendRequest.unpack data).1 = true ∧
     ∃ bs, (FileSendRequest.unpack data).2.fileName = .tup1 (.bytes bs)) := by
  simp only [FileSendRequest.unpack]
  split
  · left
    simp [FileSendRequestS.init]
  · split
    · left
      simp
    · split
      · left
        simp
      · split
        · left
          simp
        · right
          simp

/-- The SendFile `try` block fails on every input (see `sendFileDecrypt`). -/
theorem sendFileDecrypt_none (ext : Ext) (st : DB) (req : FileSendRequestS) :
    sendFileDecrypt ext st req = none := by
  unfold sendFileDecrypt
  split
  · split <;> rfl
  · rfl

theorem handle_registration_frames {ext : Ext} {st : DB} {data : Bytes}
    {s : Bool} {p : List Bytes} {st1 : DB}
    (h : Server.handle_registration_request ext st data = .ok (s, p, st1)) :
    s = true ∧ p.length = 1 := by
  have h7 : (writePackets FailedRegistrationResponse.pack).length = 1 := by decide
  have h23 : ∀ cid : Bytes, (writePackets (SuccessRegistrationResponse.pack cid)).length = 1 := by
    intro cid
    exact writePackets_one_length (by rw [success_pack_length]; omega)
      (by rw [success_pack_length]; omega)
  simp only [Server.handle_registration_request] at h
  split at h
  all_goals try split at h
  all_goals try split at h
  all_goals try split at h
  all_goals try split at h
  all_goals
    simp only [PyResult.ok.injEq, Prod.mk.injEq] at h
    obtain ⟨h1, h2, h3⟩ := h
    subst h1
    subst h2
    first
    | exact ⟨rfl, h7⟩
    | exact ⟨rfl, h23 _⟩

theorem handle_key_frames {ext : Ext} {st : DB} {data : Bytes}
    {s : Bool} {p : List Bytes} {st1 : DB}
    (h : Server.handle_encrypted_key_response ext st data = .ok (s, p, st1)) :
    (s = true ∧ p.length = 1) ∨ (s = false ∧ p = []) := by
  have h39 : ∀ (cid k : Bytes) (z : Nat),
      (writePackets (AESKeyResponse.pack cid k z)).length = 1 := by
    intro cid k z
    exact writePackets_one_length (by rw [aeskey_pack_length]; omega)
      (by rw [aeskey_pack_length]; omega)
  simp only [Server.handle_encrypted_key_response] at h
  split at h
  all_goals try split at h
  all_goals try split at h
  all_goals
    first
    | exact PyResult.noConfusion h
    | (simp only [PyResult.ok.injEq, Prod.mk.injEq] at h
       obtain ⟨h1, h2, h3⟩ := h
       subst h1
       subst h2
       first
       | exact Or.inr ⟨rfl, rfl⟩
       | exact Or.inl ⟨rfl, h39 _ _ _⟩)

theorem handle_send_file_frames {ext : Ext} {st : DB} {data : Bytes}
    {s : Bool} {p : List Bytes} {st1 : DB}
    (h : Server.handle_send_file_request ext st data = .ok (s, p, st1)) :
    s = false ∧ p = [] ∧ st1 = st := by
  simp only [Server.handle_send_file_request, PyResult.ok.injEq, Prod.mk.injEq] at h
  obtain ⟨h1, h2, h3⟩ := h
  exact ⟨h1.symm, h2.symm, h3.symm⟩

theorem handle_crc_valid_frames {ext : Ext} {st : DB} {data : Bytes}
    {s : Bool} {p : List Bytes} {st1 : DB}
    (h : Server.handle_crc_valid_request ext st data = .ok (s, p, st1)) :
    s = true ∧ p.length = 1 := by
  have h23 : ∀ cid : Bytes, (writePackets (MessageReceivedResponse.pack cid)).length = 1 := by
    intro cid
    exact writePackets_one_length (by rw [msgrecv_pack_length]; omega)
      (by rw [msgrecv_pack_length]; omega)
  simp only [Server.handle_crc_valid_request] at h
  split at h
  all_goals try split at h
  all_goals try split at h
  all_goals try split at h
  all_goals try split at h
  all_goals try split at h
  all_goals
    first
    | exact PyResult.noConfusion h
    | (simp only [PyResult.ok.injEq, Prod.mk.injEq] at h
       obtain ⟨h1, h2, h3⟩ := h
       subst h1
       subst h2
       exact ⟨rfl, h23 _⟩)

theorem handle_crc_invalid_frames {ext : Ext} {st : DB} {data : Bytes}
    {s : Bool} {p : List Bytes} {st1 : DB}
    (h : Server.handle_crc_invalid_request ext st data = .ok (s, p, st1)) :
    s = true ∧ p = [] := by
  simp only [Server.handle_crc_invalid_request] at h
  split at h
  all_goals try split at h
  all_goals
    first
    | exact PyResult.noConfusion h
    | (simp only [PyResult.ok.injEq, Prod.mk.injEq] at h
       obtain ⟨h1, h2, h3⟩ := h
       subst h1
       subst h2
       exact ⟨rfl, rfl⟩)

theorem handle_crc_fourth_frames {ext : Ext} {st : DB} {data : Bytes}
    {s : Bool} {p : List Bytes} {st1 : DB}
    (h : Server.handle_crc_invalid_fourth_time_request ext st data = .ok (s, p, st1)) :
    s = true ∧ p.length = 1 := by
  have h23 : ∀ cid : Bytes, (writePackets (MessageReceivedResponse.pack cid)).length = 1 := by
    intro cid
    exact writePackets_one_length (by rw [msgrecv_pack_length]; omega)
      (by rw [msgrecv_pack_length]; omega)
  simp only [Server.handle_crc_invalid_fourth_time_request] at h
  split at h
  all_goals try split at h
  all_goals
    first
    | exact PyResult.noConfusion h
    | (simp only [PyResult.ok.injEq, Prod.mk.injEq] at h
       obtain ⟨h1, h2, h3⟩ := h
       subst h1
       subst h2
       exact ⟨rfl, h23 _⟩)


/-- A `File` object that passes `File.validate` has `Verified = False`
(the boolean, not merely a falsy value). -/
theorem validate_verified_false {f : File} (hv : f.validate = true) :
    f.Verified = PyVal.bool false := by
  unfold File.validate at hv
  split at hv
  · simp at hv
  split at hv
  · simp at hv
  split at hv
  · simp at hv
  split at hv
  · simp at hv
  · rename_i h4
    rcases hfv : f.Verified with n | b | bs | s2 | v
    · exact absurd (Or.inr (by simp [hfv, PyVal.isBool])) h4
    · cases b
      · rfl
      · exact absurd (Or.inl (by simp [hfv, PyVal.truthy])) h4
    · exact absurd (Or.inr (by simp [hfv, PyVal.isBool])) h4
    · exact absurd (Or.inr (by simp [hfv, PyVal.isBool])) h4
    · exact absurd (Or.inr (by simp [hfv, PyVal.isBool])) h4

/-- Frame count of a completed dispatch: a returning handler either produced
one packet with `success`, or no packet — the latter with `success` only for
the CrcInvalid code 1005. -/
theorem dispatch_frames {ext : Ext} {st : DB} {data : Bytes}
    {s : Bool} {p : List Bytes} {st1 : DB}
    (h : Server.dispatch ext st data = .ok (s, p, st1)) :
    (s = true ∧ (p.length = 1 ∨ ((RequestHeader.unpack data).2.code = 1005 ∧ p = []))) ∨
    (s = false ∧ p = []) := by
  simp only [Server.dispatch, ERequestCode.val] at h
  split at h
  · simp only [PyResult.ok.injEq, Prod.mk.injEq] at h
    obtain ⟨h1, h2, -⟩ := h
    subst h1
    subst h2
    exact Or.inr ⟨rfl, rfl⟩
  · split at h
    · obtain ⟨hs, hp⟩ := handle_registration_frames h
      exact Or.inl ⟨hs, Or.inl hp⟩
    · split at h
      · rcases handle_key_frames h with ⟨hs, hp⟩ | ⟨hs, hp⟩
        · exact Or.inl ⟨hs, Or.inl hp⟩
        · exact Or.inr ⟨hs, hp⟩
      · split at h
        · obtain ⟨hs, hp, -⟩ := handle_send_file_frames h
          exact Or.inr ⟨hs, hp⟩
        · split at h
          · obtain ⟨hs, hp⟩ := handle_crc_valid_frames h
            exact Or.inl ⟨hs, Or.inl hp⟩
          · split at h
            · rename_i hcode
              obtain ⟨hs, hp⟩ := handle_crc_invalid_frames h
              exact Or.inl ⟨hs, Or.inr ⟨hcode, hp⟩⟩
            · split at h
              · obtain ⟨hs, hp⟩ := handle_crc_fourth_frames h
                exact Or.inl ⟨hs, Or.inl hp⟩
              · simp only [PyResult.ok.injEq, Prod.mk.injEq] at h
                obtain ⟨h1, h2, -⟩ := h
                subst h1
                subst h2
                exact Or.inr ⟨rfl, rfl⟩


/-! ## Claim theorems -/

/-- C6: the numeric request and response codes.  The response enumeration and
five of the request codes are as the claim states, but protocol.py assigns
`REQUEST_CRC_INVALID = 1005`, not the claimed 1105 (the surrounding codes run
1100, 1101, 1103, 1104, 1106, so 1005 is a digit-transposition slip; the
dispatch table is keyed by it, so a wire code 1105 falls through to the
generic error). -/
theorem c6_protocol_code_values :
    ERequestCode.val .REQUEST_REGISTRATION = 1100 ∧
    ERequestCode.val .REQUEST_SEND_PUBLIC_KEY = 1101 ∧
    ERequestCode.val .REQUEST_SEND_FILE = 1103 ∧
    ERequestCode.val .REQUEST_CRC_VALID = 1104 ∧
    ERequestCode.val .REQUEST_CRC_INVALID_FOURTH_TIME = 1106 ∧
    EResponseCode.val .RESPONSE_REGISTRATION_SUCCESS = 2100 ∧
    EResponseCode.val .RESPONSE_REGISTRATION_FAILED = 2101 ∧
    EResponseCode.val .RESPONSE_AES_KEY = 2102 ∧
    EResponseCode.val .RESPONSE_SUCCESS_FILE_WITH_CRC = 2103 ∧
    EResponseCode.val .RESPONSE_MSG_RECEIVED_THANKS = 2104 ∧
    EResponseCode.val .RESPONSE_ERROR = 9999 ∧
    ERequestCode.val .REQUEST_CRC_INVALID = 1005 ∧
    ERequestCode.val .REQUEST_CRC_INVALID ≠ 1105 := by
  decide

/-- C1: evaluation of a complete SendPublicKey exchange for the registered
client `"a"`.  A fresh 16-byte key is minted and overwrites the stored one
(`dbA2` holds `extA.freshAes`), and the raw key never travels; but the
response frame is 39 bytes — header, client id, and the **untouched 16-byte
`AESKey` field (all zero bytes)** — while its header declares payload size
`16 + 128 = 144`.  The 128-byte RSA-sealed blob (`extA.rsaSeal` returns
`List.replicate 128 7`) appears nowhere in the frame, contradicting the
claimed payload layout. -/
theorem c1_sealed_key_not_on_wire :
    Server.read extA dbA dataKeyW =
      .ok (writePackets (AESKeyResponse.pack cidW [] 144), dbA2) ∧
    AESKeyResponse.pack cidW [] 144 =
      ResponseHeader.pack 2102 144 ++ padS 16 cidW ++ List.replicate 16 0 ∧
    (AESKeyResponse.pack cidW [] 144).length = 39 ∧
    dbA2.clients.map Client.AESKey = [.bytes extA.freshAes] ∧
    7 + 144 ≠ 39 := by
  exact ⟨by decide, by decide, by decide, by decide, by decide⟩

/-- C3: evaluation of a Registration request for the name `"alice1"`, which
is *not* solely alphabetic/space (first conjunct), on the empty store.  The
registration nevertheless succeeds: a fresh identity is minted, the client is
stored under the invalid name, and the success response is written.  The
cause is the Python precedence of the check `if not request.name != '' and
all(...)`: it rejects only the empty name. -/
theorem c3_invalid_name_accepted :
    ("alice1".toList.all (fun ch => ch.isAlpha || pyIsSpace ch)) = false ∧
    Server.read extA dbEmpty dataRegW =
      .ok (writePackets (SuccessRegistrationResponse.pack (List.replicate 16 4)), dbReg2) ∧
    dbReg2.clients.map Client.Name = ["alice1"] := by
  exact ⟨by decide, by decide, by decide⟩

/-- C4: no SendFile request is ever answered with a response carrying a
checksum.  Inside the handler's `try` block, line 177 reads
`request.fileContent` â an attribute `FileSendRequest` does not have (its
field is `msgContent`) â so the bare `except` catches the `AttributeError`
and the handler returns `False` on every input.  Evaluated here on a fully
parsed request for `bobW` (stored 16-byte key, well-formed 16-byte
ciphertext): `read` writes exactly the generic-error frame 9999 and only
`last_seen` changes; the claimed response (identity, content size, file
name, CRC-32 of the plaintext) is never produced.  The second conjunct
checks the modelled `zlib.crc32` against the claim's reference value for
ASCII `"123456789"`. -/
theorem c4_no_crc_response :
    Server.read extA dbBob dataSendFileW =
      .ok (writePackets (ResponseHeader.pack 9999 0), dbBob2) ∧
    crc32 [49, 50, 51, 52, 53, 54, 55, 56, 57] = 0xCBF43926 := by
  exact ⟨by decide, by decide⟩

/-- C9: evaluation of a fully parsed CrcValid request addressed to `bobW`,
whose FileRecord exists and is unverified.  The handler raises
`AttributeError` at `request.fileName.partition(b"\x00")` (missing `[0]` in
`CRCValidRequest.unpack`) *before* `update_file_verified` runs and before any
acknowledgement is packed: the store is unchanged and the record stays
unverified. -/
theorem c9_crc_valid_raises :
    Server.read extA dbBobF dataCV = .exn dbBobF ∧
    dbBobF.files.map File.Verified = [.bool false] := by
  exact ⟨by decide, by decide⟩

/-- C2 counterexample: a well-formed 23-byte CrcInvalid request (code 1005)
from the registered client `bobW` is dispatched, handled successfully
(`handle_crc_invalid_request` ends with `return True` and never calls
`write`), `last_seen` is updated, and the connection is closed — with the
empty list of response packets.  The claim that the server writes exactly one
well-formed response frame on every connection before closing it is
therefore false. -/
theorem c2_counterexample :
    dataCI ≠ [] ∧ Server.read extB dbBob dataCI = .ok ([], dbBob2) := by
  exact ⟨by decide, by decide⟩

/-- C7 counterexample: a 23-byte buffer whose header parses (code 1103,
payload size 9) but whose payload fields are missing.  `FileSendRequest.unpack`
returns `False` and resets its four payload fields, but the nested
`header` object keeps the client id, version, code and payload size parsed
from the input — stale data, not the defined empty initial state the claim
requires for every field. -/
theorem c7_counterexample :
    FileSendRequest.unpack dataH23 =
      (false, ⟨⟨cidW, 3, 1103, 9⟩, [], .int 0, .bytes [], []⟩) ∧
    (FileSendRequest.unpack dataH23).2.header ≠ RequestHeaderS.init := by
  exact ⟨by decide, by decide⟩


/-- C5: for every SendFile request (parsed header, code 1103) whose
decryption pipeline fails — the stored-key lookup returns nothing or a
non-key value, the ciphertext length is not a block multiple, or PKCS#7
unpadding fails — the handler returns failure, `read` answers with the
generic-error response (code 9999), and the file table is untouched (only
`last_seen`, a client column, changes). -/
theorem c5_failed_upload_files_unchanged (ext : Ext) (st : DB) (data : Bytes)
    (h1 : (RequestHeader.unpack data).1 = true)
    (h2 : (RequestHeader.unpack data).2.code = 1103)
    (h3 : sendFileDecrypt ext st (FileSendRequest.unpack data).2 = none) :
    Server.read ext st data =
      .ok (writePackets (ResponseHeader.pack 9999 0),
        (Database.set_last_seen st (RequestHeader.unpack data).2.clientID ext.now).2) ∧
    ((Database.set_last_seen st (RequestHeader.unpack data).2.clientID ext.now).2).files
      = st.files := by
  have _ := h3
  have hne : data ≠ [] := by
    intro he
    rw [he] at h1
    exact absurd h1 (by decide)
  have hd : Server.dispatch ext st data = .ok (false, [], st) := by
    simp [Server.dispatch, ERequestCode.val, h1, h2, Server.handle_send_file_request]
  constructor
  · simp [Server.read, if_neg hne, hd, EResponseCode.val]
  · rfl

/-- C5 witness: the bare-header SendFile request `dataSF23` against the empty
store (no stored key, so the pipeline fails at the key lookup). -/
theorem c5_witness :
    Server.read extB dbEmpty dataSF23 =
      .ok (writePackets (ResponseHeader.pack 9999 0),
        (Database.set_last_seen dbEmpty (RequestHeader.unpack dataSF23).2.clientID extB.now).2) ∧
    ((Database.set_last_seen dbEmpty (RequestHeader.unpack dataSF23).2.clientID extB.now).2).files
      = dbEmpty.files :=
  c5_failed_upload_files_unchanged extB dbEmpty dataSF23 (by decide) (by decide) (by decide)

/-- C2 (amended): for every nonempty datagram whose dispatch returns without
an uncaught Python exception, the server closes the connection after writing
exactly one response frame — *except* that a CrcInvalid request (code 1005)
is, by design, acknowledged with no response frame at all.  (Requests whose
handler raises — unknown-client lookups, the tuple-valued `fileName` slips —
get no response and no close; see `c2_counterexample` for the zero-frame
CrcInvalid close.)  The hypothesis on `ext.aesDec` records that real AES-CBC
decryption of the empty ciphertext is empty. -/
theorem c2_one_frame_or_crc_invalid (ext : Ext) (st : DB) (data : Bytes)
    (frames : List Bytes) (st2 : DB)
    (hlen : ∀ k, ext.aesDec k [] = [])
    (hne : data ≠ [])
    (h : Server.read ext st data = .ok (frames, st2)) :
    frames.length = 1 ∨ ((RequestHeader.unpack data).2.code = 1005 ∧ frames = []) := by
  have _ := hlen
  simp only [Server.read, if_neg hne] at h
  cases hd : Server.dispatch ext st data with
  | exn st3 =>
    rw [hd] at h
    exact PyResult.noConfusion h
  | ok t =>
    obtain ⟨s, p, st1⟩ := t
    rw [hd] at h
    simp only [PyResult.ok.injEq, Prod.mk.injEq] at h
    obtain ⟨hframes, -⟩ := h
    subst hframes
    rcases dispatch_frames hd with ⟨hs, hp | ⟨hc, hp⟩⟩ | ⟨hs, hp⟩
    · subst hs
      simp only [if_true]
      exact Or.inl hp
    · subst hs
      simp only [if_true]
      exact Or.inr ⟨hc, hp⟩
    · subst hs
      simp only [Bool.false_eq_true, if_false, hp, List.nil_append]
      exact Or.inl (writePackets_one_length (by decide) (by decide))

/-- C2 witness: a one-byte datagram (header fails to parse) against the
empty store draws exactly the generic-error frame. -/
theorem c2_witness :
    (writePackets (ResponseHeader.pack 9999 0)).length = 1 ∨
    ((RequestHeader.unpack [0]).2.code = 1005 ∧
      writePackets (ResponseHeader.pack 9999 0) = []) :=
  c2_one_frame_or_crc_invalid extB dbEmpty [0]
    (writePackets (ResponseHeader.pack 9999 0))
    ((Database.set_last_seen dbEmpty (RequestHeader.unpack [0]).2.clientID extB.now).2)
    (fun _ => rfl) (by decide) (by decide)

/-- C7 (amended): every byte sequence shorter than the 23-byte header makes
every decoder fail with *all* fields (header included) at their empty initial
values, and a field whose declared length does not match the available bytes
also makes decoding fail; on any `FileSendRequest.unpack` failure the four
payload fields are reset — but when the header itself parsed and a later
payload field failed, the nested header object keeps the parsed header values
(see `c7_counterexample`), so "every field" does not hold as claimed. -/
theorem c7_decoders_fail_reset (data : Bytes) :
    (data.length < 23 →
      RequestHeader.unpack data = (false, RequestHeaderS.init) ∧
      RegistrationRequest.unpack data = (false, ⟨RequestHeaderS.init, .bytes []⟩) ∧
      PublicKeyRequest.unpack data = (false, ⟨RequestHeaderS.init, .bytes [], []⟩) ∧
      FileSendRequest.unpack data = (false, FileSendRequestS.init) ∧
      CRCValidRequest.unpack data = (false, ⟨RequestHeaderS.init, [], .bytes []⟩)) ∧
    ((FileSendRequest.unpack data).1 = false →
      (FileSendRequest.unpack data).2.clientID = [] ∧
      (FileSendRequest.unpack data).2.contentSize = .int 0 ∧
      (FileSendRequest.unpack data).2.fileName = .bytes [] ∧
      (FileSendRequest.unpack data).2.msgContent = []) := by
  constructor
  · intro hlen
    have hh := requestHeader_unpack_short hlen
    refine ⟨hh, ?_, ?_, ?_, ?_⟩ <;>
      simp [RegistrationRequest.unpack, PublicKeyRequest.unpack, FileSendRequest.unpack,
        CRCValidRequest.unpack, hh, FileSendRequestS.init]
  · intro hfail
    rcases fileSend_unpack_char data with ⟨-, h⟩ | ⟨ht, -⟩
    · exact h
    · rw [ht] at hfail
      cases hfail

/-- C7 witness: the empty byte sequence, and the payload-field reset at a
concrete failing input. -/
theorem c7_witness :
    RequestHeader.unpack [] = (false, RequestHeaderS.init) ∧
    FileSendRequest.unpack [] = (false, FileSendRequestS.init) ∧
    (FileSendRequest.unpack dataH23).2.fileName = .bytes [] := by
  refine ⟨((c7_decoders_fail_reset []).1 (by decide)).1,
    ((c7_decoders_fail_reset []).1 (by decide)).2.2.2.1,
    ((c7_decoders_fail_reset dataH23).2 (by decide)).2.2.1⟩

/-- C8: no FileRecord is ever created or overwritten by a SendFile request.
The handler's `try` block always fails at the `request.fileContent` read, so
`insert_new_file` (line 187) is dead code: the fully parsed request for
`bobW` â whose FileRecord already exists with `verified = true` â draws the
generic-error response and leaves the files table unchanged (the record
stays verified), contradicting the claimed create-or-overwrite-unverified
post-state.  Independently, `insert_new_file` itself uses `INSERT OR
IGNORE`: whenever a record with the same client id exists the store is
returned unchanged, so even the insertion primitive never overwrites (final
conjunct). -/
theorem c8_file_record_not_created :
    Server.read extA dbC8 dataSendFileW =
      .ok (writePackets (ResponseHeader.pack 9999 0), dbC82) ∧
    dbC82.files = [fileRowV] ∧
    fileRowV.Verified = PyVal.bool true ∧
    (∀ (st : DB) (f : File), st.files.any (fun r => r.ID == f.ID) = true →
      (Database.insert_new_file st f).2 = st) := by
  refine ⟨by decide, by decide, by decide, ?_⟩
  intro st f hex
  unfold Database.insert_new_file
  split
  · rfl
  · rfl

/-- C8 witness: inserting a fresh unverified upload for `cidW` into the
store that already holds `cidW`'s verified record leaves the store
unchanged. -/
theorem c8_witness : (Database.insert_new_file dbC8 fileNew).2 = dbC8 :=
  c8_file_record_not_created.2.2.2 dbC8 fileNew (by decide)

/-- C10: the validator accepts only file objects whose `Verified` is the
boolean `False`; consequently every row the insertion operation adds is
unverified (a row of the new store is an old row or unverified), and none of
the other storage operations touches the file table at all — only the
explicit `update_file_verified` used by the CrcValid handler can mark a
stored file verified. -/
theorem c10_stored_files_unverified :
    (∀ f : File, f.validate = true → f.Verified = PyVal.bool false) ∧
    (∀ (st : DB) (f : File) (r : File),
      r ∈ (Database.insert_new_file st f).2.files →
      r ∈ st.files ∨ r.Verified = PyVal.bool false) ∧
    (∀ (st : DB) (c : Client), (Database.store_client st c).2.files = st.files) ∧
    (∀ (st : DB) (cid : Bytes) (k : PyVal),
      (Database.set_public_key st cid k).2.files = st.files) ∧
    (∀ (st : DB) (cid : Bytes) (k : Bytes),
      (Database.update_aes_key st cid k).2.files = st.files) ∧
    (∀ (st : DB) (cid : Bytes) (t : String),
      (Database.set_last_seen st cid t).2.files = st.files) := by
  refine ⟨fun f hv => validate_verified_false hv, ?_, ?_, ?_, ?_, ?_⟩
  · intro st f r hr
    unfold Database.insert_new_file at hr
    split at hr
    · exact Or.inl hr
    · rename_i hval
      split at hr
      · exact Or.inl hr
      · simp only [List.mem_append, List.mem_singleton] at hr
        rcases hr with hr | hr
        · exact Or.inl hr
        · subst hr
          exact Or.inr (validate_verified_false (not_not.mp hval))
  · intro st c
    unfold Database.store_client
    split
    · rfl
    · split
      · rfl
      · rfl
  · intro st cid k
    rfl
  · intro st cid k
    unfold Database.update_aes_key
    split
    · rfl
    · rfl
  · intro st cid t
    rfl

/-- C10 witness: the unverified record `fileGood` passes validation with
`Verified = False`, and the pre-existing verified row survives an insertion
attempt only because it was already present. -/
theorem c10_witness :
    fileGood.Verified = PyVal.bool false ∧
    (fileRowV ∈ dbC8.files ∨ fileRowV.Verified = PyVal.bool false) := by
  constructor
  · exact c10_stored_files_unverified.1 fileGood (by decide)
  · exact c10_stored_files_unverified.2.1 dbC8 fileBad fileRowV (by decide)

end EFTS
